import Mathlib

/-!
Verification of the subscription router of the Opinion-Trading WebSocket relay
(`src/web-socket-redis-server.ts`).

The router state is the pair of indices kept by `WebSocketRedisServer`:
`clientSubscriptions : WeakMap<WebSocket, Set<string>>` and
`globalSubscriptions : Map<string, Set<WebSocket>>`, together with counters of
upstream (Redis) subscribe/unsubscribe calls issued per topic.  JavaScript
`Set`s are insertion ordered and duplicate free; they are embedded as `List`s
with an add operation that appends only when the element is absent.  Map and
WeakMap presence is embedded as `Option`.

Each handler of the source class becomes a pure state transformer.  Adapter
(Redis) calls can reject; the transformer takes the call outcome as a `Bool`
argument (`true` = the awaited call resolved) and returns, besides the new
state, a `Bool` recording whether an exception escaped the handler (in the
source every such exception is caught and logged by the `ws.on("message")`
try/catch; the connection is never closed and no error frame is sent).
-/

set_option linter.unusedSectionVars false

namespace OpinionRelay

/-- JavaScript `Set.add`: append the element iff it is not already present
(insertion order preserved, no duplicates created). -/
def jsSetAdd {α : Type} [DecidableEq α] (a : α) (l : List α) : List α :=
  if a ∈ l then l else l ++ [a]

/-- Router state of `WebSocketRedisServer`: the two subscription indices plus
per-topic counters of issued upstream Redis subscribe/unsubscribe calls
(a call is counted when issued, whether or not it later resolves). -/
structure Router (Conn Topic : Type) where
  client : Conn → Option (List Topic)
  global : Topic → Option (List Conn)
  subCalls : Topic → Nat
  unsubCalls : Topic → Nat

variable {Conn Topic : Type} [DecidableEq Conn] [DecidableEq Topic]

/-- Initial state: both indices empty, no upstream call issued
(`new Map()` / `new WeakMap()` in the constructor). -/
def Router.start : Router Conn Topic :=
  ⟨fun _ => none, fun _ => none, fun _ => 0, fun _ => 0⟩

/-- Embedding of the `connection` handler prefix
`this.clientSubscriptions.set(ws, new Set())`: register a fresh empty
subscription set for the connection. -/
def handleConnection (c : Conn) (s : Router Conn Topic) : Router Conn Topic :=
  { s with client := Function.update s.client c (some []) }

/-- Embedding of `handleSubscription(ws, stockSymbol)`.

Source behaviour, line by line:
* `this.clientSubscriptions.get(ws)!` on an unregistered connection yields
  `undefined` and the following `.has` throws before any mutation (`none`
  branch, state unchanged, exception escapes);
* if the topic is already in the client set, early return (duplicate logged);
* otherwise `clientSubs.add(stockSymbol)`;
* if the topic has no entry in `globalSubscriptions`, a singleton entry is
  created and `redisClient.subscribe` is awaited.  When that call rejects the
  exception propagates to the caller but NOTHING is rolled back: both
  insertions survive, which the `ok` flag makes visible (state is identical
  for both outcomes, only the escaped-exception flag differs);
* if the topic already has an entry, the connection is added to it and no
  upstream call is made. -/
def handleSubscription (ok : Bool) (c : Conn) (t : Topic) (s : Router Conn Topic) :
    Router Conn Topic × Bool :=
  match s.client c with
  | none => (s, true)
  | some subs =>
    if t ∈ subs then (s, false)
    else
      let s1 : Router Conn Topic :=
        { s with client := Function.update s.client c (some (jsSetAdd t subs)) }
      match s.global t with
      | none =>
        ({ s1 with
            global := Function.update s1.global t (some [c])
            subCalls := Function.update s1.subCalls t (s1.subCalls t + 1) }, !ok)
      | some g =>
        ({ s1 with global := Function.update s1.global t (some (jsSetAdd c g)) }, false)

/-- Embedding of `handleUnsubscription(ws, stockSymbol)`.

Source behaviour:
* unregistered connection: `.has` on `undefined` throws before any mutation;
* topic not in the client set: early return, no Adapter call;
* otherwise `clientSubs.delete(stockSymbol)`; then
  `this.globalSubscriptions.get(stockSymbol)!` — if the map has no entry this
  throws after the client-set deletion (unreachable from reachable states);
* otherwise `globalSubs.delete(ws)`; if the set became empty,
  `redisClient.unsubscribe` is awaited and counted, and only when it resolves
  does `globalSubscriptions.delete(stockSymbol)` run: on rejection the
  now-empty entry REMAINS in the map and the exception escapes. -/
def handleUnsubscription (ok : Bool) (c : Conn) (t : Topic) (s : Router Conn Topic) :
    Router Conn Topic × Bool :=
  match s.client c with
  | none => (s, true)
  | some subs =>
    if t ∈ subs then
      let s1 : Router Conn Topic :=
        { s with client := Function.update s.client c (some (subs.erase t)) }
      match s.global t with
      | none => (s1, true)
      | some g =>
        let g1 := g.erase c
        if g1 = [] then
          ({ s1 with
              global := Function.update s1.global t (if ok then none else (some g1))
              unsubCalls := Function.update s1.unsubCalls t (s1.unsubCalls t + 1) }, !ok)
        else
          ({ s1 with global := Function.update s1.global t (some g1) }, false)
    else (s, false)

/-- Embedding of `handleClientDisconnection(ws)`: iterate the client set in
insertion order calling `handleUnsubscription` for each topic (JS
`Set.forEach` deleting the element under the cursor visits the remaining
elements, so iterating the snapshot list is exact), then delete the client
entry.  The per-topic `ok` function gives each fire-and-forget upstream
unsubscribe its outcome. -/
def handleClientDisconnection (ok : Topic → Bool) (c : Conn) (s : Router Conn Topic) :
    Router Conn Topic :=
  let s1 := match s.client c with
    | none => s
    | some subs => subs.foldl (fun st t => (handleUnsubscription (ok t) c t st).1) s
  { s1 with client := Function.update s1.client c none }

/-- Outbound delivery envelope built by `broadcastToSubscribers`:
`{ event: "event_orderbook_update", stockSymbol, message }`, serialized with
`JSON.stringify` and sent per connection.  The `message` field holds the raw
upstream payload string unmodified. -/
structure OutboundEnvelope (Topic : Type) where
  event : String
  stockSymbol : Topic
  message : String
deriving DecidableEq

/-- Embedding of `broadcastToSubscribers(stockSymbol, message)`.  The map
entry is read; when absent nothing happens.  Otherwise one envelope is built
and sent to every subscriber whose `readyState === WebSocket.OPEN` (the
`ready` predicate); closed connections are skipped and counted as failures.
The router state is returned untouched: broadcasting only reads the indices.
Result: (state, sent messages in set order, successCount, failCount). -/
def broadcastToSubscribers (ready : Conn → Bool) (t : Topic) (msg : String)
    (s : Router Conn Topic) :
    Router Conn Topic × List (Conn × OutboundEnvelope Topic) × Nat × Nat :=
  match s.global t with
  | none => (s, [], 0, 0)
  | some subs =>
    let env : OutboundEnvelope Topic := ⟨"event_orderbook_update", t, msg⟩
    let sent := (subs.filter fun c => ready c).map fun c => (c, env)
    (s, sent, sent.length, (subs.filter fun c => !(ready c)).length)

/-- Decoded inbound client frame.  `malformed` is a frame whose
`JSON.parse` throws.  Otherwise the `type` and `stockSymbol` fields are each
either a string or absent (`none` = the JS value `undefined`; a non-string
JSON value in `type` behaves exactly like an unknown string under the `===`
comparisons, and a missing `stockSymbol` flows through the handlers as the
value `undefined`, so topics are `Option String` here). -/
inductive InboundFrame where
  | malformed : InboundFrame
  | frame (ty : Option String) (stockSymbol : Option String) : InboundFrame

/-- Embedding of the `ws.on("message")` handler plus `handleMessage`:
`JSON.parse` failure is caught and logged (message dropped, connection stays
open); `type === "subscribe"` and `type === "unsubscribe"` dispatch with the
raw `stockSymbol` value, any other `type` is only logged.  The returned flag
records whether an exception escaped `handleMessage` (it is then caught by
the same try/catch; no branch closes the connection or sends a frame). -/
def handleRawMessage (ok : Bool) (c : Conn) (f : InboundFrame)
    (s : Router Conn (Option String)) : Router Conn (Option String) × Bool :=
  match f with
  | .malformed => (s, true)
  | .frame ty sym =>
    if ty = some "subscribe" then handleSubscription ok c sym s
    else if ty = some "unsubscribe" then handleUnsubscription ok c sym s
    else (s, false)

/-- States reachable from `Router.start` by any sequence of connection
registrations, subscribe/unsubscribe requests (with arbitrary Adapter call
outcomes) and disconnections.  A `connect` step concerns a connection the
router does not currently track (the transport hands each `ws` object to the
`connection` handler exactly once). -/
inductive Reachable : Router Conn Topic → Prop
  | start : Reachable Router.start
  | connect {s : Router Conn Topic} (c : Conn) (h : Reachable s)
      (hc : s.client c = none) : Reachable (handleConnection c s)
  | subscribe {s : Router Conn Topic} (ok : Bool) (c : Conn) (t : Topic)
      (h : Reachable s) : Reachable (handleSubscription ok c t s).1
  | unsubscribe {s : Router Conn Topic} (ok : Bool) (c : Conn) (t : Topic)
      (h : Reachable s) : Reachable (handleUnsubscription ok c t s).1
  | disconnect {s : Router Conn Topic} (ok : Topic → Bool) (c : Conn)
      (h : Reachable s) : Reachable (handleClientDisconnection ok c s)

/-- States reachable when every awaited Adapter (Redis) call resolves. -/
inductive ReachableOk : Router Conn Topic → Prop
  | start : ReachableOk Router.start
  | connect {s : Router Conn Topic} (c : Conn) (h : ReachableOk s)
      (hc : s.client c = none) : ReachableOk (handleConnection c s)
  | subscribe {s : Router Conn Topic} (c : Conn) (t : Topic)
      (h : ReachableOk s) : ReachableOk (handleSubscription true c t s).1
  | unsubscribe {s : Router Conn Topic} (c : Conn) (t : Topic)
      (h : ReachableOk s) : ReachableOk (handleUnsubscription true c t s).1
  | disconnect {s : Router Conn Topic} (c : Conn)
      (h : ReachableOk s) : ReachableOk (handleClientDisconnection (fun _ => true) c s)

/-- Duality between the two indices: a connection is recorded under a topic
in `globalSubscriptions` exactly when the topic is recorded in the
subscription set of that connection (absent map entries read as empty). -/
def Duality (s : Router Conn Topic) : Prop :=
  ∀ (t : Topic) (c : Conn), c ∈ (s.global t).getD [] ↔ t ∈ (s.client c).getD []

/-- Both indices only hold duplicate-free lists (the `Set` discipline). -/
def NodupState (s : Router Conn Topic) : Prop :=
  (∀ c l, s.client c = some l → l.Nodup) ∧ (∀ t l, s.global t = some l → l.Nodup)

/-- Reference-count bookkeeping: a `globalSubscriptions` entry is never the
empty set, and the issued upstream subscribe calls for a topic exceed the
issued unsubscribe calls by one exactly while the topic has an entry. -/
def RefCount (s : Router Conn Topic) : Prop :=
  ∀ t : Topic, (∀ g, s.global t = some g → g ≠ []) ∧
    s.subCalls t = s.unsubCalls t + (if (s.global t).isSome then 1 else 0)

/-- Membership after a JS `Set.add`. -/
theorem mem_jsSetAdd {α : Type} [DecidableEq α] {a b : α} {l : List α} :
    a ∈ jsSetAdd b l ↔ a ∈ l ∨ a = b := by
  by_cases h : b ∈ l
  · simp only [jsSetAdd, if_pos h]
    constructor
    · exact Or.inl
    · rintro (ha | rfl)
      · exact ha
      · exact h
  · simp [jsSetAdd, if_neg h]

/-- JS `Set.add` keeps the list duplicate free. -/
theorem nodup_jsSetAdd {α : Type} [DecidableEq α] {b : α} {l : List α} (h : l.Nodup) :
    (jsSetAdd b l).Nodup := by
  by_cases hb : b ∈ l
  · simpa [jsSetAdd, if_pos hb] using h
  · simp [jsSetAdd, if_neg hb, List.nodup_append, h, hb]

/-- JS `Set.add` never yields the empty set. -/
theorem jsSetAdd_ne_nil {α : Type} [DecidableEq α] (b : α) (l : List α) :
    jsSetAdd b l ≠ [] := by
  by_cases hb : b ∈ l
  · simp only [jsSetAdd, if_pos hb]
    rintro rfl
    exact absurd hb (List.not_mem_nil b)
  · simp [jsSetAdd, if_neg hb]

/-- Registering a fresh connection preserves duality and the set discipline. -/
theorem inv_connect {s : Router Conn Topic} (c : Conn)
    (hd : Duality s) (hn : NodupState s) (hc : s.client c = none) :
    Duality (handleConnection c s) ∧ NodupState (handleConnection c s) := by
  obtain ⟨hnc, hng⟩ := hn
  refine ⟨?_, ?_, ?_⟩
  · intro t' c'
    by_cases hcc : c' = c
    · subst hcc
      simp only [handleConnection, Function.update_same]
      rw [hd t' c', hc]
      simp
    · simpa only [handleConnection, Function.update_noteq hcc] using hd t' c'
  · intro c' l hl
    by_cases hcc : c' = c
    · subst hcc
      simp only [handleConnection, Function.update_same] at hl
      cases hl
      exact List.nodup_nil
    · exact hnc c' l (by simpa only [handleConnection, Function.update_noteq hcc] using hl)
  · intro t' l hl
    exact hng t' l hl

/-- Subscribing preserves duality and the set discipline, for either Adapter
outcome (the state does not depend on the outcome). -/
theorem inv_sub (ok : Bool) (c : Conn) (t : Topic) {s : Router Conn Topic}
    (hd : Duality s) (hn : NodupState s) :
    Duality (handleSubscription ok c t s).1 ∧ NodupState (handleSubscription ok c t s).1 := by
  obtain ⟨hnc, hng⟩ := hn
  rcases hc : s.client c with _ | subs
  · simp only [handleSubscription, hc]
    exact ⟨hd, hnc, hng⟩
  · by_cases hm : t ∈ subs
    · simp only [handleSubscription, hc, if_pos hm]
      exact ⟨hd, hnc, hng⟩
    · rcases hg : s.global t with _ | g
      · simp only [handleSubscription, hc, if_neg hm, hg]
        refine ⟨?_, ?_, ?_⟩
        · intro t' c'
          by_cases ht : t' = t
          · subst ht
            by_cases hcc : c' = c
            · subst hcc
              simp [Function.update_same, mem_jsSetAdd]
            · simp only [Function.update_same, Function.update_noteq hcc]
              rw [← hd t' c', hg]
              simp [hcc]
          · by_cases hcc : c' = c
            · subst hcc
              simp only [Function.update_noteq ht, Function.update_same]
              rw [hd t' c', hc]
              simp [mem_jsSetAdd, ht]
            · simpa only [Function.update_noteq ht, Function.update_noteq hcc] using hd t' c'
        · intro c' l hl
          by_cases hcc : c' = c
          · subst hcc
            simp only [Function.update_same] at hl
            cases hl
            exact nodup_jsSetAdd (hnc c' subs hc)
          · exact hnc c' l (by simpa only [Function.update_noteq hcc] using hl)
        · intro t' l hl
          by_cases ht : t' = t
          · subst ht
            simp only [Function.update_same] at hl
            cases hl
            exact List.nodup_singleton c
          · exact hng t' l (by simpa only [Function.update_noteq ht] using hl)
      · simp only [handleSubscription, hc, if_neg hm, hg]
        refine ⟨?_, ?_, ?_⟩
        · intro t' c'
          by_cases ht : t' = t
          · subst ht
            by_cases hcc : c' = c
            · subst hcc
              simp [Function.update_same, mem_jsSetAdd]
            · simp only [Function.update_same, Function.update_noteq hcc]
              rw [← hd t' c', hg]
              simp [mem_jsSetAdd, hcc]
          · by_cases hcc : c' = c
            · subst hcc
              simp only [Function.update_noteq ht, Function.update_same]
              rw [hd t' c', hc]
              simp [mem_jsSetAdd, ht]
            · simpa only [Function.update_noteq ht, Function.update_noteq hcc] using hd t' c'
        · intro c' l hl
          by_cases hcc : c' = c
          · subst hcc
            simp only [Function.update_same] at hl
            cases hl
            exact nodup_jsSetAdd (hnc c' subs hc)
          · exact hnc c' l (by simpa only [Function.update_noteq hcc] using hl)
        · intro t' l hl
          by_cases ht : t' = t
          · subst ht
            simp only [Function.update_same] at hl
            cases hl
            exact nodup_jsSetAdd (hng t' g hg)
          · exact hng t' l (by simpa only [Function.update_noteq ht] using hl)

/-- Unsubscribing preserves duality and the set discipline, for either
Adapter outcome. -/
theorem inv_unsub (ok : Bool) (c : Conn) (t : Topic) {s : Router Conn Topic}
    (hd : Duality s) (hn : NodupState s) :
    Duality (handleUnsubscription ok c t s).1 ∧ NodupState (handleUnsubscription ok c t s).1 := by
  obtain ⟨hnc, hng⟩ := hn
  rcases hc : s.client c with _ | subs
  · simp only [handleUnsubscription, hc]
    exact ⟨hd, hnc, hng⟩
  · by_cases hm : t ∈ subs
    · have hsubs : subs.Nodup := hnc c subs hc
      rcases hg : s.global t with _ | g
      · simp only [handleUnsubscription, hc, if_pos hm, hg]
        refine ⟨?_, ?_, ?_⟩
        · intro t' c'
          by_cases ht : t' = t
          · subst ht
            by_cases hcc : c' = c
            · subst hcc
              simp only [Function.update_same]
              rw [hg]
              simp [hsubs.not_mem_erase]
            · simpa only [Function.update_noteq hcc] using hd t' c'
          · by_cases hcc : c' = c
            · subst hcc
              simp only [Function.update_same]
              rw [hd t' c', hc]
              simp [hsubs.mem_erase_iff, ht]
            · simpa only [Function.update_noteq hcc] using hd t' c'
        · intro c' l hl
          by_cases hcc : c' = c
          · subst hcc
            simp only [Function.update_same] at hl
            cases hl
            exact hsubs.erase t
          · exact hnc c' l (by simpa only [Function.update_noteq hcc] using hl)
        · intro t' l hl
          exact hng t' l hl
      · have hgn : g.Nodup := hng t g hg
        by_cases h1 : g.erase c = []
        · simp only [handleUnsubscription, hc, if_pos hm, hg, if_pos h1]
          have hval : ((if ok then none else some (g.erase c)) : Option (List Conn)).getD [] = [] := by
            cases ok <;> simp [h1]
          refine ⟨?_, ?_, ?_⟩
          · intro t' c'
            by_cases ht : t' = t
            · subst ht
              by_cases hcc : c' = c
              · subst hcc
                simp only [Function.update_same, hval]
                simp [hsubs.not_mem_erase]
              · simp only [Function.update_same, Function.update_noteq hcc, hval]
                rw [← hd t' c', hg]
                constructor
                · intro h
                  exact absurd h (List.not_mem_nil c')
                · intro h
                  have : c' ∈ g.erase c := (List.mem_erase_of_ne hcc).mpr h
                  rw [h1] at this
                  exact absurd this (List.not_mem_nil c')
            · by_cases hcc : c' = c
              · subst hcc
                simp only [Function.update_noteq ht, Function.update_same]
                rw [hd t' c', hc]
                simp [hsubs.mem_erase_iff, ht]
              · simpa only [Function.update_noteq ht, Function.update_noteq hcc] using hd t' c'
          · intro c' l hl
            by_cases hcc : c' = c
            · subst hcc
              simp only [Function.update_same] at hl
              cases hl
              exact hsubs.erase t
            · exact hnc c' l (by simpa only [Function.update_noteq hcc] using hl)
          · intro t' l hl
            by_cases ht : t' = t
            · subst ht
              simp only [Function.update_same] at hl
              cases ok
              · simp only [if_neg Bool.false_ne_true] at hl
                cases hl
                exact hgn.erase c
              · simp at hl
            · exact hng t' l (by simpa only [Function.update_noteq ht] using hl)
        · simp only [handleUnsubscription, hc, if_pos hm, hg, if_neg h1]
          refine ⟨?_, ?_, ?_⟩
          · intro t' c'
            by_cases ht : t' = t
            · subst ht
              by_cases hcc : c' = c
              · subst hcc
                simp only [Function.update_same]
                simp [hgn.not_mem_erase, hsubs.not_mem_erase]
              · simp only [Function.update_same, Function.update_noteq hcc]
                rw [← hd t' c', hg]
                simp [List.mem_erase_of_ne hcc]
            · by_cases hcc : c' = c
              · subst hcc
                simp only [Function.update_noteq ht, Function.update_same]
                rw [hd t' c', hc]
                simp [hsubs.mem_erase_iff, ht]
              · simpa only [Function.update_noteq ht, Function.update_noteq hcc] using hd t' c'
          · intro c' l hl
            by_cases hcc : c' = c
            · subst hcc
              simp only [Function.update_same] at hl
              cases hl
              exact hsubs.erase t
            · exact hnc c' l (by simpa only [Function.update_noteq hcc] using hl)
          · intro t' l hl
            by_cases ht : t' = t
            · subst ht
              simp only [Function.update_same] at hl
              cases hl
              exact hgn.erase c
            · exact hng t' l (by simpa only [Function.update_noteq ht] using hl)
    · simp only [handleUnsubscription, hc, if_neg hm]
      exact ⟨hd, hnc, hng⟩

/-- Whenever the topic is in the client set, `handleUnsubscription` removes
it from that set, in every Adapter-outcome branch. -/
theorem unsub_client (ok : Bool) (c : Conn) (t : Topic) {s : Router Conn Topic}
    {subs : List Topic} (hc : s.client c = some subs) (hm : t ∈ subs) :
    (handleUnsubscription ok c t s).1.client
      = Function.update s.client c (some (subs.erase t)) := by
  rcases hg : s.global t with _ | g
  · simp [handleUnsubscription, hc, hm, hg]
  · by_cases h1 : g.erase c = []
    · simp [handleUnsubscription, hc, hm, hg, h1]
    · simp [handleUnsubscription, hc, hm, hg, h1]

/-- Any property preserved by every per-topic unsubscribe step is preserved
by the disconnect fold. -/
theorem foldl_unsub_preserve (ok : Topic → Bool) (c : Conn)
    (P : Router Conn Topic → Prop)
    (hstep : ∀ (t : Topic) (s : Router Conn Topic), P s → P (handleUnsubscription (ok t) c t s).1) :
    ∀ (L : List Topic) (s : Router Conn Topic), P s →
      P (L.foldl (fun st t => (handleUnsubscription (ok t) c t st).1) s) := by
  intro L
  induction L with
  | nil => intro s h; exact h
  | cons t L ih =>
    intro s h
    exact ih _ (hstep t s h)

/-- Folding the unsubscribe step over the very list stored as the client set
empties that set (the source iterates `clientSubs.forEach`, each iteration
deleting its own element). -/
theorem fold_client_empty (ok : Topic → Bool) (c : Conn) :
    ∀ (L : List Topic) (s : Router Conn Topic), s.client c = some L →
      ((L.foldl (fun st t => (handleUnsubscription (ok t) c t st).1) s)).client c = some [] := by
  intro L
  induction L with
  | nil => intro s h; exact h
  | cons t L ih =>
    intro s h
    apply ih
    rw [unsub_client (ok t) c t h (List.mem_cons_self t L), Function.update_same,
      List.erase_cons_head]

/-- Disconnecting preserves duality and the set discipline, for any
Adapter outcomes of the per-topic upstream unsubscribes. -/
theorem inv_disc (ok : Topic → Bool) (c : Conn) {s : Router Conn Topic}
    (hd : Duality s) (hn : NodupState s) :
    Duality (handleClientDisconnection ok c s) ∧ NodupState (handleClientDisconnection ok c s) := by
  rcases hc : s.client c with _ | subs
  · obtain ⟨hnc, hng⟩ := hn
    simp only [handleClientDisconnection, hc]
    refine ⟨?_, ?_, ?_⟩
    · intro t' c'
      by_cases hcc : c' = c
      · subst hcc
        simp only [Function.update_same]
        rw [hd t' c', hc]
      · simpa only [Function.update_noteq hcc] using hd t' c'
    · intro c' l hl
      by_cases hcc : c' = c
      · subst hcc
        simp only [Function.update_same] at hl
        exact Option.noConfusion hl
      · exact hnc c' l (by simpa only [Function.update_noteq hcc] using hl)
    · exact hng
  · have hfold := foldl_unsub_preserve ok c (fun st => Duality st ∧ NodupState st)
      (fun t st hst => inv_unsub (ok t) c t hst.1 hst.2) subs s ⟨hd, hn⟩
    obtain ⟨hd1, hn1⟩ := hfold
    have hempty := fold_client_empty ok c subs s hc
    simp only [handleClientDisconnection, hc]
    refine ⟨?_, ?_, ?_⟩
    · intro t' c'
      by_cases hcc : c' = c
      · subst hcc
        simp only [Function.update_same]
        rw [hd1 t' c', hempty]
        simp
      · simpa only [Function.update_noteq hcc] using hd1 t' c'
    · intro c' l hl
      by_cases hcc : c' = c
      · subst hcc
        simp only [Function.update_same] at hl
        exact Option.noConfusion hl
      · exact hn1.1 c' l (by simpa only [Function.update_noteq hcc] using hl)
    · exact hn1.2

/-- Every reachable router state satisfies index duality and the
duplicate-free set discipline. -/
theorem reachable_inv {s : Router Conn Topic} (h : Reachable s) :
    Duality s ∧ NodupState s := by
  induction h with
  | start =>
    refine ⟨?_, ?_, ?_⟩
    · intro t c
      simp [Router.start]
    · intro c l hl
      simp [Router.start] at hl
    · intro t l hl
      simp [Router.start] at hl
  | connect c h hc ih => exact inv_connect c ih.1 ih.2 hc
  | subscribe ok c t h ih => exact inv_sub ok c t ih.1 ih.2
  | unsubscribe ok c t h ih => exact inv_unsub ok c t ih.1 ih.2
  | disconnect ok c h ih => exact inv_disc ok c ih.1 ih.2

/-- Registering a connection touches neither the global index nor the call
counters. -/
theorem refcount_connect (c : Conn) {s : Router Conn Topic} (h : RefCount s) :
    RefCount (handleConnection c s) := h

/-- Subscribing preserves the reference-count bookkeeping (both outcomes:
the state does not depend on the outcome of the upstream call). -/
theorem refcount_sub (ok : Bool) (c : Conn) (t : Topic) {s : Router Conn Topic}
    (h : RefCount s) : RefCount (handleSubscription ok c t s).1 := by
  rcases hc : s.client c with _ | subs
  · simpa only [handleSubscription, hc] using h
  · by_cases hm : t ∈ subs
    · simpa only [handleSubscription, hc, if_pos hm] using h
    · rcases hg : s.global t with _ | g
      · simp only [handleSubscription, hc, if_neg hm, hg]
        intro t'
        by_cases ht : t' = t
        · subst ht
          constructor
          · intro g2 hg2
            simp only [Function.update_same] at hg2
            cases hg2
            simp
          · have heq := (h t').2
            rw [hg] at heq
            simp [Function.update_same, heq]
        · constructor
          · intro g2 hg2
            simp only [Function.update_noteq ht] at hg2
            exact (h t').1 g2 hg2
          · simpa only [Function.update_noteq ht] using (h t').2
      · simp only [handleSubscription, hc, if_neg hm, hg]
        intro t'
        by_cases ht : t' = t
        · subst ht
          constructor
          · intro g2 hg2
            simp only [Function.update_same] at hg2
            cases hg2
            exact jsSetAdd_ne_nil c g
          · have heq := (h t').2
            rw [hg] at heq
            simp [Function.update_same, heq]
        · constructor
          · intro g2 hg2
            simp only [Function.update_noteq ht] at hg2
            exact (h t').1 g2 hg2
          · simpa only [Function.update_noteq ht] using (h t').2

/-- Unsubscribing with a resolving upstream call preserves the
reference-count bookkeeping. -/
theorem refcount_unsub (c : Conn) (t : Topic) {s : Router Conn Topic}
    (h : RefCount s) : RefCount (handleUnsubscription true c t s).1 := by
  rcases hc : s.client c with _ | subs
  · simpa only [handleUnsubscription, hc] using h
  · by_cases hm : t ∈ subs
    · rcases hg : s.global t with _ | g
      · simpa only [handleUnsubscription, hc, if_pos hm, hg] using h
      · by_cases h1 : g.erase c = []
        · simp only [handleUnsubscription, hc, if_pos hm, hg, if_pos h1, if_true]
          intro t'
          by_cases ht : t' = t
          · subst ht
            constructor
            · intro g2 hg2
              simp only [Function.update_same] at hg2
              simp at hg2
            · have heq := (h t').2
              rw [hg] at heq
              simp [Function.update_same, heq]
          · constructor
            · intro g2 hg2
              simp only [Function.update_noteq ht] at hg2
              exact (h t').1 g2 hg2
            · simpa only [Function.update_noteq ht] using (h t').2
        · simp only [handleUnsubscription, hc, if_pos hm, hg, if_neg h1]
          intro t'
          by_cases ht : t' = t
          · subst ht
            constructor
            · intro g2 hg2
              simp only [Function.update_same] at hg2
              cases hg2
              exact h1
            · have heq := (h t').2
              rw [hg] at heq
              simp [Function.update_same, heq]
          · constructor
            · intro g2 hg2
              simp only [Function.update_noteq ht] at hg2
              exact (h t').1 g2 hg2
            · simpa only [Function.update_noteq ht] using (h t').2
    · simpa only [handleUnsubscription, hc, if_neg hm] using h

/-- Disconnecting with resolving upstream calls preserves the
reference-count bookkeeping. -/
theorem refcount_disc (c : Conn) {s : Router Conn Topic} (h : RefCount s) :
    RefCount (handleClientDisconnection (fun _ => true) c s) := by
  rcases hc : s.client c with _ | subs
  · simpa only [handleClientDisconnection, hc] using h
  · have hfold := foldl_unsub_preserve (fun _ => true) c RefCount
      (fun t st hst => refcount_unsub c t hst) subs s h
    simpa only [handleClientDisconnection, hc] using hfold

/-- Every state reachable with resolving Adapter calls satisfies the
reference-count bookkeeping. -/
theorem reachableOk_refcount {s : Router Conn Topic} (h : ReachableOk s) :
    RefCount s := by
  induction h with
  | start =>
    intro t
    constructor
    · intro g hg
      simp [Router.start] at hg
    · simp [Router.start]
  | connect c h hc ih => exact refcount_connect c ih
  | subscribe c t h ih => exact refcount_sub true c t ih
  | unsubscribe c t h ih => exact refcount_unsub c t ih
  | disconnect c h ih => exact refcount_disc c ih

/-- An unsubscribe of a different topic touches neither the entry nor the
unsubscribe counter of this topic. -/
theorem unsub_frame (ok : Bool) (c : Conn) (t' t : Topic) (hne : t ≠ t')
    (s : Router Conn Topic) :
    (handleUnsubscription ok c t' s).1.global t = s.global t ∧
    (handleUnsubscription ok c t' s).1.unsubCalls t = s.unsubCalls t := by
  rcases hc : s.client c with _ | subs
  · simp [handleUnsubscription, hc]
  · by_cases hm : t' ∈ subs
    · rcases hg : s.global t' with _ | g
      · simp [handleUnsubscription, hc, hm, hg]
      · by_cases h1 : g.erase c = []
        · simp [handleUnsubscription, hc, hm, hg, h1, Function.update_noteq hne]
        · simp [handleUnsubscription, hc, hm, hg, h1, Function.update_noteq hne]
    · simp [handleUnsubscription, hc, hm]

/-- An unsubscribe never creates a topic entry: an absent entry stays absent
and its counter does not move. -/
theorem unsub_none_stays (ok : Bool) (c : Conn) (t : Topic) {s : Router Conn Topic}
    (h : s.global t = none) :
    (handleUnsubscription ok c t s).1.global t = none ∧
    (handleUnsubscription ok c t s).1.unsubCalls t = s.unsubCalls t := by
  rcases hc : s.client c with _ | subs
  · simp [handleUnsubscription, hc, h]
  · by_cases hm : t ∈ subs
    · simp [handleUnsubscription, hc, hm, h]
    · simp [handleUnsubscription, hc, hm, h]

/-- Combination of the two previous lemmas for an arbitrary step topic. -/
theorem unsub_keeps_none (ok : Bool) (c : Conn) (t t' : Topic) {s : Router Conn Topic}
    (h : s.global t = none) :
    (handleUnsubscription ok c t' s).1.global t = none ∧
    (handleUnsubscription ok c t' s).1.unsubCalls t = s.unsubCalls t := by
  by_cases ht : t = t'
  · subst ht
    exact unsub_none_stays ok c t h
  · obtain ⟨h1, h2⟩ := unsub_frame ok c t' t ht s
    exact ⟨h1.trans h, h2⟩

/-- Once a topic entry is gone, the rest of the disconnect fold keeps it gone
and issues no further upstream unsubscribe for it. -/
theorem fold_none_stays (c : Conn) (t : Topic) :
    ∀ (L : List Topic) (s : Router Conn Topic), s.global t = none →
      ((L.foldl (fun st t' => (handleUnsubscription true c t' st).1) s)).global t = none ∧
      ((L.foldl (fun st t' => (handleUnsubscription true c t' st).1) s)).unsubCalls t
        = s.unsubCalls t := by
  intro L
  induction L with
  | nil => intro s h; exact ⟨h, rfl⟩
  | cons t' L ih =>
    intro s h
    obtain ⟨h1, h2⟩ := unsub_keeps_none true c t t' h
    obtain ⟨h3, h4⟩ := ih _ h1
    exact ⟨h3, h4.trans h2⟩

/-- Unsubscribing the last subscriber with a resolving upstream call removes
the topic entry and issues exactly one upstream unsubscribe. -/
theorem unsub_last (c : Conn) (t : Topic) {s : Router Conn Topic} {subs : List Topic}
    (hc : s.client c = some subs) (hm : t ∈ subs) (hg : s.global t = some [c]) :
    (handleUnsubscription true c t s).1.global t = none ∧
    (handleUnsubscription true c t s).1.unsubCalls t = s.unsubCalls t + 1 := by
  have h1 : ([c] : List Conn).erase c = [] := by simp
  simp [handleUnsubscription, hc, hm, hg, h1, Function.update_same]

/-- An unsubscribe of a different topic keeps this topic in the client set. -/
theorem unsub_client_keep (ok : Bool) (c : Conn) (t' t : Topic) (hne : t ≠ t')
    {s : Router Conn Topic} {subs : List Topic}
    (hc : s.client c = some subs) (hm : t ∈ subs) :
    ∃ subs2, (handleUnsubscription ok c t' s).1.client c = some subs2 ∧ t ∈ subs2 := by
  by_cases hm2 : t' ∈ subs
  · refine ⟨subs.erase t', ?_, ?_⟩
    · rw [unsub_client ok c t' hc hm2, Function.update_same]
    · exact (List.mem_erase_of_ne hne).mpr hm
  · have hid : handleUnsubscription ok c t' s = (s, false) := by
      simp [handleUnsubscription, hc, hm2]
    rw [hid]
    exact ⟨subs, hc, hm⟩

/-- Along the disconnect fold, a topic whose entry is exactly this connection
and which is still pending in both the fold list and the client set ends with
its entry removed and exactly one upstream unsubscribe issued. -/
theorem fold_release (c : Conn) (t : Topic) :
    ∀ (L : List Topic) (s : Router Conn Topic) (subs : List Topic), t ∈ L →
      s.client c = some subs → t ∈ subs → s.global t = some [c] →
      ((L.foldl (fun st t' => (handleUnsubscription true c t' st).1) s)).global t = none ∧
      ((L.foldl (fun st t' => (handleUnsubscription true c t' st).1) s)).unsubCalls t
        = s.unsubCalls t + 1 := by
  intro L
  induction L with
  | nil => intro s subs hL; exact absurd hL (List.not_mem_nil t)
  | cons t' L ih =>
    intro s subs hL hc hm hg
    by_cases ht : t = t'
    · subst ht
      obtain ⟨ha, hb⟩ := unsub_last c t hc hm hg
      obtain ⟨hna, hnb⟩ := fold_none_stays c t L _ ha
      exact ⟨hna, hnb.trans hb⟩
    · obtain ⟨hfg, hfu⟩ := unsub_frame true c t' t ht s
      obtain ⟨subs2, hc2, hm2⟩ := unsub_client_keep true c t' t ht hc hm
      have hL2 : t ∈ L := by
        rcases List.mem_cons.mp hL with h | h
        · exact absurd h ht
        · exact h
      obtain ⟨ra, rb⟩ := ih _ subs2 hL2 hc2 hm2 (hfg.trans hg)
      refine ⟨ra, ?_⟩
      simp only [List.foldl_cons]
      rw [rb, hfu]

/-- C1: duality invariant.  After every sequence of `subscribe`,
`unsubscribe`, `onConnect` and `onDisconnect` operations (with any Adapter
call outcomes), a connection is a member of `GlobalSubscriptionIndex[topic]`
iff the topic is a member of `ClientSubscriptionIndex[conn]`. -/
theorem duality_invariant {s : Router Conn Topic} (h : Reachable s) :
    ∀ (t : Topic) (c : Conn), c ∈ (s.global t).getD [] ↔ t ∈ (s.client c).getD [] :=
  (reachable_inv h).1

/-- Witness for C1 at the concrete reachable state connect 0, subscribe
0 to AAPL. -/
theorem duality_invariant_witness :
    0 ∈ (((handleSubscription true 0 "AAPL"
        (handleConnection 0 (Router.start : Router ℕ String))).1.global "AAPL").getD []) ↔
      "AAPL" ∈ (((handleSubscription true 0 "AAPL"
        (handleConnection 0 (Router.start : Router ℕ String))).1.client 0).getD []) :=
  duality_invariant
    (Reachable.subscribe true 0 "AAPL" (Reachable.connect 0 Reachable.start rfl)) "AAPL" 0

/-- C2 counterexample: with connection 0 registered and topic AAPL fresh, a
failing Adapter subscribe leaves BOTH index insertions in place — the topic
stays in the client set and the connection in the topic entry, i.e. the
connection IS still marked subscribed, contradicting the claimed rollback. -/
theorem subscribe_rollback_cex :
    ((handleSubscription false 0 "AAPL"
        (handleConnection 0 (Router.start : Router ℕ String))).2 = true) ∧
    ((handleSubscription false 0 "AAPL"
        (handleConnection 0 (Router.start : Router ℕ String))).1.client 0 = some ["AAPL"]) ∧
    ((handleSubscription false 0 "AAPL"
        (handleConnection 0 (Router.start : Router ℕ String))).1.global "AAPL" = some [0]) := by
  decide

/-- C2 (amended): when the Adapter subscribe call for a first subscriber
fails, the exception propagates to the caller (the message loop catches and
logs it), but the index insertions are NOT rolled back: the topic remains in
the client set, the connection remains in the topic entry, and the upstream
call is counted as issued. -/
theorem subscribe_failure_retains_state (c : Conn) (t : Topic)
    {s : Router Conn Topic} {subs : List Topic}
    (hc : s.client c = some subs) (hm : t ∉ subs) (hg : s.global t = none) :
    (handleSubscription false c t s).2 = true ∧
    (handleSubscription false c t s).1.client c = some (subs ++ [t]) ∧
    (handleSubscription false c t s).1.global t = some [c] ∧
    (handleSubscription false c t s).1.subCalls t = s.subCalls t + 1 := by
  have hadd : jsSetAdd t subs = subs ++ [t] := if_neg hm
  simp [handleSubscription, hc, hm, hg, hadd, Function.update_same]

/-- Witness for the amended C2 at a concrete state. -/
theorem subscribe_failure_retains_state_witness :
    ((handleConnection 0 (Router.start : Router ℕ String)).client 0 = some []) ∧
    ("AAPL" ∉ ([] : List String)) ∧
    ((handleConnection 0 (Router.start : Router ℕ String)).global "AAPL" = none) ∧
    ((handleSubscription false 0 "AAPL"
        (handleConnection 0 (Router.start : Router ℕ String))).1.client 0 = some ["AAPL"]) :=
  ⟨rfl, by decide, rfl,
    (subscribe_failure_retains_state 0 "AAPL" rfl (by decide) rfl).2.1⟩

/-- C3: reference-count invariant.  In every state reached with resolving
Adapter calls, the number of upstream subscribe calls issued for a topic
minus the number of upstream unsubscribe calls issued for it is 1 when its
subscriber set is non-empty and 0 otherwise. -/
theorem refcount_invariant {s : Router Conn Topic} (h : ReachableOk s) (t : Topic) :
    ((s.subCalls t : ℤ) - (s.unsubCalls t : ℤ)) =
      (if (s.global t).getD [] ≠ [] then 1 else 0) := by
  obtain ⟨hne, hcount⟩ := reachableOk_refcount h t
  rcases hg : s.global t with _ | g
  · rw [hg] at hcount
    simp only [Option.isSome_none, Bool.false_eq_true, if_false, Nat.add_zero] at hcount
    simp [hg, hcount]
  · have hgn : g ≠ [] := hne g hg
    rw [hg] at hcount
    simp only [Option.isSome_some, if_true] at hcount
    simp only [hg, Option.getD_some, if_pos hgn, hcount]
    push_cast
    ring

/-- Witness for C3 at the concrete state connect 0, subscribe 0 to AAPL. -/
theorem refcount_invariant_witness :
    (((handleSubscription true 0 "AAPL"
          (handleConnection 0 (Router.start : Router ℕ String))).1.subCalls "AAPL" : ℤ)
        - ((handleSubscription true 0 "AAPL"
          (handleConnection 0 (Router.start : Router ℕ String))).1.unsubCalls "AAPL" : ℤ)) =
      (if ((handleSubscription true 0 "AAPL"
          (handleConnection 0 (Router.start : Router ℕ String))).1.global "AAPL").getD [] ≠ []
        then 1 else 0) :=
  refcount_invariant
    (ReachableOk.subscribe 0 "AAPL" (ReachableOk.connect 0 ReachableOk.start rfl)) "AAPL"

/-- C4: idempotence.  For a registered connection, a second identical
subscribe leaves the state exactly as after the first (whatever the Adapter
outcomes, and for any topic, already subscribed or not); unsubscribing a
topic not in the client set returns the state unchanged with no Adapter
call issued and no exception. -/
theorem idempotence (c : Conn) {s : Router Conn Topic} {subs : List Topic}
    (hc : s.client c = some subs) :
    (∀ (a b : Bool) (t : Topic),
      (handleSubscription b c t (handleSubscription a c t s).1).1
        = (handleSubscription a c t s).1) ∧
    (∀ (a : Bool) (t : Topic), t ∉ subs → handleUnsubscription a c t s = (s, false)) := by
  constructor
  · intro a b t
    by_cases hm : t ∈ subs
    · have h1 : handleSubscription a c t s = (s, false) := by
        simp [handleSubscription, hc, hm]
      rw [h1]
      simp [handleSubscription, hc, hm]
    · have hmem : (handleSubscription a c t s).1.client c = some (jsSetAdd t subs) := by
        rcases hg : s.global t with _ | g <;>
          simp [handleSubscription, hc, hm, hg, Function.update_same]
      have htmem : t ∈ jsSetAdd t subs := mem_jsSetAdd.mpr (Or.inr rfl)
      obtain ⟨X, hX⟩ : ∃ X, (handleSubscription a c t s).1 = X := ⟨_, rfl⟩
      rw [hX] at hmem ⊢
      simp [handleSubscription, hmem, htmem]
  · intro a t hm
    simp [handleUnsubscription, hc, hm]

/-- Witness for C4 at a concrete state: double subscribe to AAPL collapses,
and unsubscribing the never-subscribed MSFT is the identity. -/
theorem idempotence_witness :
    ((handleConnection 0 (Router.start : Router ℕ String)).client 0 = some []) ∧
    ((handleSubscription false 0 "AAPL"
        (handleSubscription true 0 "AAPL"
          (handleConnection 0 (Router.start : Router ℕ String))).1).1
      = (handleSubscription true 0 "AAPL"
          (handleConnection 0 (Router.start : Router ℕ String))).1) ∧
    (handleUnsubscription true 0 "MSFT"
        (handleConnection 0 (Router.start : Router ℕ String))
      = (handleConnection 0 (Router.start : Router ℕ String), false)) :=
  ⟨rfl, (idempotence 0 rfl).1 true false "AAPL",
    (idempotence 0 rfl).2 true "MSFT" (by decide)⟩

/-- C5: disconnect cleanup.  From any reachable state, after
`onDisconnect(c)` (with resolving upstream calls) the connection has no
entry in `ClientSubscriptionIndex`, appears in no topic entry of
`GlobalSubscriptionIndex`, and every topic whose only subscriber was `c`
has its entry removed with exactly one upstream unsubscribe issued. -/
theorem disconnect_cleanup (c : Conn) {s : Router Conn Topic} (h : Reachable s) :
    (handleClientDisconnection (fun _ => true) c s).client c = none ∧
    (∀ t : Topic, c ∉ ((handleClientDisconnection (fun _ => true) c s).global t).getD []) ∧
    (∀ t : Topic, s.global t = some [c] →
      (handleClientDisconnection (fun _ => true) c s).global t = none ∧
      (handleClientDisconnection (fun _ => true) c s).unsubCalls t = s.unsubCalls t + 1) := by
  have hpost : Reachable (handleClientDisconnection (fun _ => true) c s) :=
    Reachable.disconnect (fun _ => true) c h
  have hdual := (reachable_inv hpost).1
  have hclient : (handleClientDisconnection (fun _ => true) c s).client c = none := by
    rcases hc : s.client c with _ | subs <;>
      simp [handleClientDisconnection, hc, Function.update_same]
  refine ⟨hclient, ?_, ?_⟩
  · intro t hmem
    have hmem2 := (hdual t c).mp hmem
    rw [hclient] at hmem2
    simp at hmem2
  · intro t hg
    have hdual0 := (reachable_inv h).1
    have hcmem : c ∈ (s.global t).getD [] := by
      rw [hg]
      simp
    have htmem := (hdual0 t c).mp hcmem
    rcases hc : s.client c with _ | subs
    · rw [hc] at htmem
      simp at htmem
    · rw [hc] at htmem
      simp only [Option.getD_some] at htmem
      have hrel := fold_release c t subs s subs htmem hc htmem hg
      simp only [handleClientDisconnection, hc]
      exact hrel

/-- Witness for C5 at the concrete state connect 0, subscribe 0 to AAPL,
then disconnect 0. -/
theorem disconnect_cleanup_witness :
    ((handleClientDisconnection (fun _ => true) 0
        (handleSubscription true 0 "AAPL"
          (handleConnection 0 (Router.start : Router ℕ String))).1).client 0 = none) ∧
    (0 ∉ (((handleClientDisconnection (fun _ => true) 0
        (handleSubscription true 0 "AAPL"
          (handleConnection 0 (Router.start : Router ℕ String))).1).global "AAPL").getD [])) ∧
    ((handleClientDisconnection (fun _ => true) 0
        (handleSubscription true 0 "AAPL"
          (handleConnection 0 (Router.start : Router ℕ String))).1).global "AAPL" = none) :=
  ⟨(disconnect_cleanup 0
      (Reachable.subscribe true 0 "AAPL" (Reachable.connect 0 Reachable.start rfl))).1,
    (disconnect_cleanup 0
      (Reachable.subscribe true 0 "AAPL" (Reachable.connect 0 Reachable.start rfl))).2.1 "AAPL",
    ((disconnect_cleanup 0
      (Reachable.subscribe true 0 "AAPL" (Reachable.connect 0 Reachable.start rfl))).2.2 "AAPL"
      (by decide)).1⟩

/-- C6: fan-out correctness.  A broadcast on a topic sends the envelope
`{ event: "event_orderbook_update", stockSymbol: topic, message: payload }`
(payload passed through unmodified) to exactly the connections in the topic
entry that are open at that instant — a connection receives it iff it is in
`GlobalSubscriptionIndex[topic]` and open, so connections subscribed only to
other topics receive nothing — and the router state is left unchanged. -/
theorem fanout_correct (ready : Conn → Bool) (t : Topic) (msg : String)
    (s : Router Conn Topic) (c : Conn) (env : OutboundEnvelope Topic) :
    ((c, env) ∈ (broadcastToSubscribers ready t msg s).2.1 ↔
      (c ∈ (s.global t).getD [] ∧ ready c = true ∧
        env = ⟨"event_orderbook_update", t, msg⟩)) ∧
    (broadcastToSubscribers ready t msg s).1 = s := by
  rcases hg : s.global t with _ | subs
  · simp [broadcastToSubscribers, hg]
  · constructor
    · simp only [broadcastToSubscribers, hg, Option.getD_some, List.mem_map,
        List.mem_filter]
      constructor
      · rintro ⟨c2, ⟨hmem, hr⟩, heq⟩
        cases heq
        exact ⟨hmem, hr, rfl⟩
      · rintro ⟨hmem, hr, rfl⟩
        exact ⟨c, ⟨hmem, hr⟩, rfl⟩
    · simp [broadcastToSubscribers, hg]

/-- C7: isolation under partial delivery failure.  With a closed subscriber
`c1` and an open subscriber `c2` on the same topic, the broadcast still
delivers the envelope to `c2`, delivers nothing to `c1` and counts it as
failed, and neither aborts nor touches the router state (so the upstream
subscription lifetime is unaffected). -/
theorem broadcast_isolation (ready : Conn → Bool) (t : Topic) (msg : String)
    {s : Router Conn Topic} {subs : List Conn} (c1 c2 : Conn)
    (hg : s.global t = some subs) (h1 : c1 ∈ subs) (h2 : c2 ∈ subs)
    (hr1 : ready c1 = false) (hr2 : ready c2 = true) :
    ((c2, (⟨"event_orderbook_update", t, msg⟩ : OutboundEnvelope Topic))
        ∈ (broadcastToSubscribers ready t msg s).2.1) ∧
    (∀ env, (c1, env) ∉ (broadcastToSubscribers ready t msg s).2.1) ∧
    1 ≤ (broadcastToSubscribers ready t msg s).2.2.2 ∧
    (broadcastToSubscribers ready t msg s).1 = s := by
  refine ⟨?_, ?_, ?_, ?_⟩
  · simp only [broadcastToSubscribers, hg, List.mem_map, List.mem_filter]
    exact ⟨c2, ⟨h2, hr2⟩, rfl⟩
  · intro env hmem
    simp only [broadcastToSubscribers, hg, List.mem_map, List.mem_filter] at hmem
    obtain ⟨c3, ⟨_, hr3⟩, heq⟩ := hmem
    cases heq
    rw [hr1] at hr3
    exact Bool.false_ne_true hr3
  · have hmem : c1 ∈ subs.filter (fun c => !(ready c)) :=
      List.mem_filter.mpr ⟨h1, by simp [hr1]⟩
    simpa only [broadcastToSubscribers, hg] using List.length_pos_of_mem hmem
  · simp [broadcastToSubscribers, hg]

/-- Witness for C7: topic T with subscribers 1 (closed) and 2 (open). -/
theorem broadcast_isolation_witness :
    (((2 : ℕ), (⟨"event_orderbook_update", "T", "px"⟩ : OutboundEnvelope String))
        ∈ (broadcastToSubscribers (fun c => decide (c = 2)) "T" "px"
          (⟨fun _ => none, fun t2 => if t2 = "T" then some [1, 2] else none,
            fun _ => 0, fun _ => 0⟩ : Router ℕ String)).2.1) ∧
    (1 ≤ (broadcastToSubscribers (fun c => decide (c = 2)) "T" "px"
          (⟨fun _ => none, fun t2 => if t2 = "T" then some [1, 2] else none,
            fun _ => 0, fun _ => 0⟩ : Router ℕ String)).2.2.2) := by
  have h := broadcast_isolation (fun c => decide (c = 2)) "T" "px" 1 2
    (show (⟨fun _ => none, fun t2 => if t2 = "T" then some [1, 2] else none,
        fun _ => 0, fun _ => 0⟩ : Router ℕ String).global "T" = some [1, 2] from rfl)
    (by decide) (by decide) (by decide) (by decide)
  exact ⟨h.1, h.2.2.1⟩

/-- C8 counterexample: connection 0 is the last AAPL subscriber and the
Adapter unsubscribe call fails; the claim says the now-empty entry is
discarded, but the entry REMAINS in `GlobalSubscriptionIndex` (as an empty
set) and the exception escapes to the caller. -/
theorem unsub_failure_cleanup_cex :
    ((handleUnsubscription false 0 "AAPL"
        (handleSubscription true 0 "AAPL"
          (handleConnection 0 (Router.start : Router ℕ String))).1).1.global "AAPL"
      = some []) ∧
    ((handleUnsubscription false 0 "AAPL"
        (handleSubscription true 0 "AAPL"
          (handleConnection 0 (Router.start : Router ℕ String))).1).2 = true) := by
  decide

/-- C8 (amended): when the last subscriber of a topic unsubscribes and the
Adapter unsubscribe call fails, the topic is removed from the client set,
the connection from the topic entry, and the single upstream unsubscribe is
issued (not retried); but the now-empty map entry is NOT discarded — it
remains as an empty set — and the exception propagates to the caller (the
message loop catches and logs it; the connection is not closed). -/
theorem unsub_failure_partial_cleanup (c : Conn) (t : Topic)
    {s : Router Conn Topic} {subs : List Topic} {g : List Conn}
    (hc : s.client c = some subs) (hm : t ∈ subs) (hg : s.global t = some g)
    (h1 : g.erase c = []) :
    (handleUnsubscription false c t s).1.client c = some (subs.erase t) ∧
    (handleUnsubscription false c t s).1.global t = some [] ∧
    (handleUnsubscription false c t s).1.unsubCalls t = s.unsubCalls t + 1 ∧
    (handleUnsubscription false c t s).2 = true := by
  simp [handleUnsubscription, hc, hm, hg, h1, Function.update_same]

/-- Witness for the amended C8 at a concrete state. -/
theorem unsub_failure_partial_cleanup_witness :
    (((handleSubscription true 0 "AAPL"
        (handleConnection 0 (Router.start : Router ℕ String))).1.client 0 = some ["AAPL"]) ∧
      (("AAPL" : String) ∈ (["AAPL"] : List String)) ∧
      ((handleSubscription true 0 "AAPL"
        (handleConnection 0 (Router.start : Router ℕ String))).1.global "AAPL" = some [0])) ∧
    ((handleUnsubscription false 0 "AAPL"
        (handleSubscription true 0 "AAPL"
          (handleConnection 0 (Router.start : Router ℕ String))).1).1.global "AAPL"
      = some []) :=
  ⟨⟨rfl, by decide, rfl⟩,
    (unsub_failure_partial_cleanup 0 "AAPL" rfl (by decide) rfl (by decide)).2.1⟩

/-- C9 counterexample: the valid-JSON frame with type subscribe and NO
stockSymbol field is not dropped: the handler runs with the JS value
`undefined` as topic, mutating both indices (and issuing an upstream
subscribe for channel orderbook.undefined), contradicting the claim that
malformed frames (missing stockSymbol) leave the indices unchanged. -/
theorem inbound_missing_symbol_cex :
    ((handleRawMessage true 0 (.frame (some "subscribe") none)
        (handleConnection 0 (Router.start : Router ℕ (Option String)))).1.client 0
      = some [none]) ∧
    ((handleRawMessage true 0 (.frame (some "subscribe") none)
        (handleConnection 0 (Router.start : Router ℕ (Option String)))).1.global none
      = some [0]) ∧
    ((handleRawMessage true 0 (.frame (some "subscribe") none)
        (handleConnection 0 (Router.start : Router ℕ (Option String)))).1.subCalls none
      = 1) := by
  decide

/-- C9 (amended): a frame whose JSON fails to parse is dropped per-message
(state unchanged, the parse exception is caught); a frame whose type is
neither subscribe nor unsubscribe is only logged (state unchanged, no
exception); but a subscribe or unsubscribe frame is dispatched with the raw
stockSymbol value even when the field is missing — a missing field is
processed as the undefined topic and, for subscribe on a fresh connection,
appended to the client set (no branch closes the connection or sends an
error frame). -/
theorem inbound_decoding_amended (c : Conn) (s : Router Conn (Option String)) :
    (∀ ok : Bool, handleRawMessage ok c .malformed s = (s, true)) ∧
    (∀ (ok : Bool) (ty sym : Option String), ty ≠ some "subscribe" →
      ty ≠ some "unsubscribe" → handleRawMessage ok c (.frame ty sym) s = (s, false)) ∧
    (∀ (ok : Bool) (sym : Option String),
      handleRawMessage ok c (.frame (some "subscribe") sym) s
        = handleSubscription ok c sym s) ∧
    (∀ (ok : Bool) (sym : Option String),
      handleRawMessage ok c (.frame (some "unsubscribe") sym) s
        = handleUnsubscription ok c sym s) ∧
    (∀ (ok : Bool) (subs : List (Option String)), s.client c = some subs →
      (none : Option String) ∉ subs →
      (handleRawMessage ok c (.frame (some "subscribe") none) s).1.client c
        = some (subs ++ [none])) := by
  refine ⟨fun ok => rfl, ?_, fun ok sym => rfl, fun ok sym => rfl, ?_⟩
  · intro ok ty sym hsub hunsub
    simp [handleRawMessage, hsub, hunsub]
  · intro ok subs hc hm
    have hadd : jsSetAdd (none : Option String) subs = subs ++ [none] := if_neg hm
    rcases hg : s.global none with _ | g <;>
      simp [handleRawMessage, handleSubscription, hc, hm, hg, hadd, Function.update_same]

/-- Witness for the amended C9 at a concrete state. -/
theorem inbound_decoding_amended_witness :
    (handleRawMessage true 0 .malformed
        (handleConnection 0 (Router.start : Router ℕ (Option String)))
      = (handleConnection 0 (Router.start : Router ℕ (Option String)), true)) ∧
    (handleRawMessage true 0 (.frame (some "ping") (some "AAPL"))
        (handleConnection 0 (Router.start : Router ℕ (Option String)))
      = (handleConnection 0 (Router.start : Router ℕ (Option String)), false)) ∧
    ((handleRawMessage true 0 (.frame (some "subscribe") none)
        (handleConnection 0 (Router.start : Router ℕ (Option String)))).1.client 0
      = some ([] ++ [none])) :=
  ⟨(inbound_decoding_amended 0
      (handleConnection 0 (Router.start : Router ℕ (Option String)))).1 true,
    (inbound_decoding_amended 0
      (handleConnection 0 (Router.start : Router ℕ (Option String)))).2.1 true
      (some "ping") (some "AAPL") (by decide) (by decide),
    (inbound_decoding_amended 0
      (handleConnection 0 (Router.start : Router ℕ (Option String)))).2.2.2.2 true
      [] rfl (by decide)⟩

/-- C10: broadcasting on a topic with no entry (or an empty entry) completes
without error, sends nothing, reports zero successes and failures, and
leaves the router state — both indices — unchanged, so a late upstream
callback after the last unsubscribe cannot crash the router. -/
theorem broadcast_missing_topic (ready : Conn → Bool) (t : Topic) (msg : String)
    {s : Router Conn Topic} (h : s.global t = none ∨ s.global t = some []) :
    (broadcastToSubscribers ready t msg s).2.1 = [] ∧
    (broadcastToSubscribers ready t msg s).2.2.1 = 0 ∧
    (broadcastToSubscribers ready t msg s).2.2.2 = 0 ∧
    (broadcastToSubscribers ready t msg s).1 = s := by
  rcases h with h | h <;> simp [broadcastToSubscribers, h]

/-- Witness for C10: broadcasting on the empty initial state. -/
theorem broadcast_missing_topic_witness :
    ((Router.start : Router ℕ String).global "AAPL" = none) ∧
    ((broadcastToSubscribers (fun _ => true) "AAPL" "px"
        (Router.start : Router ℕ String)).2.1 = []) ∧
    ((broadcastToSubscribers (fun _ => true) "AAPL" "px"
        (Router.start : Router ℕ String)).1 = (Router.start : Router ℕ String)) :=
  ⟨rfl,
    (broadcast_missing_topic (fun _ => true) "AAPL" "px" (Or.inl rfl)).1,
    (broadcast_missing_topic (fun _ => true) "AAPL" "px" (Or.inl rfl)).2.2.2⟩

end OpinionRelay
